import Mathlib

/-!
# Phonebook widget (`src/script.js`)

A shallow embedding of the contact list manager: the in-memory list `contacts`, the
`localStorage` entry kept under `STORAGE_KEY`, the message area, the table body and the
count label are the fields of `State`; every function of the script that reads or writes
them becomes a function on `State`.

Conventions of the embedding.

* A JavaScript string is a Lean `String`; a property that may be missing is an
  `Option String`, `none` standing for a missing property (which reads as `undefined`).
* What the browser supplies is collected in `Host`: the clock behind `Date.now()`, the answer
  to `confirm(...)`, whether `localStorage.setItem` returns normally, `JSON.stringify` and
  `String.prototype.toLowerCase`; and, for `loadContacts`, in `Startup`: `JSON.parse` on the
  stored entry and the way the one `fetch` settles.
* The form elements the submit handler works on are the fields of `Form`; a `Page` is a
  `State` with a `Form`.
* A `try { ... } catch` block is an `Except` computation followed by its handler, so the
  functions that catch everything are total functions on `State`.
-/

namespace Phonebook

/-! ## Data model -/

/-- A contact object `{ id, name, phone, email }`; `none` is a missing property. -/
structure Contact where
  id : Option String
  name : Option String
  phone : Option String
  email : Option String
deriving DecidableEq, Repr

/-- What the browser supplies to one run of an operation. -/
structure Host where
  /-- The value of `Date.now()`: milliseconds since the epoch. -/
  now : Nat
  /-- The answer to `confirm('Delete this contact?')`. -/
  confirmed : Bool
  /-- Whether `localStorage.setItem` returns normally (it throws when storage is full or off). -/
  setItemOk : Bool
  /-- The function `JSON.stringify`, on contact lists. -/
  stringify : List Contact → String
  /-- The function `String.prototype.toLowerCase`. -/
  toLowerCase : String → String

/-- The content of the table body `els.contactsBody`. -/
inductive Body where
  /-- Markup assigned to `innerHTML` of the body. -/
  | html (markup : String)
  /-- The `tr` elements appended to the emptied body, each given by its `innerHTML`. -/
  | rows (trs : List String)
deriving DecidableEq, Repr

/-- The mutable state the script works on. -/
structure State where
  /-- The module variable `contacts`. -/
  contacts : List Contact
  /-- The value of `localStorage` under `STORAGE_KEY`, `none` when the key is not set. -/
  stored : Option String
  /-- The property `els.message.textContent`. -/
  messageText : String
  /-- The property `els.message.style.color`. -/
  messageColor : String
  /-- The property `els.message.style.display`. -/
  messageDisplay : String
  /-- The children of `els.contactsBody`. -/
  body : Body
  /-- The property `els.contactCount.textContent`. -/
  contactCount : String
deriving DecidableEq, Repr

/-- The constant `initialContacts`. -/
def initialContacts : List Contact :=
  [ { id := some "1", name := some "Alice Johnson", phone := some "+91 98765 43210",
      email := some "alice@example.com" },
    { id := some "2", name := some "Bob Kumar", phone := some "+91 98765 11223",
      email := some "bob@example.net" },
    { id := some "3", name := some "Carol Singh", phone := some "+91 98400 22334",
      email := some "carol@example.org" } ]

/-! ## String primitives of the language -/

/-- The characters `String.prototype.trim` strips and the regular expression class `\s` matches:
the ECMAScript `WhiteSpace` and `LineTerminator` code points. -/
def isJsSpace (c : Char) : Bool :=
  let n := c.toNat
  n = 0x09 || n = 0x0A || n = 0x0B || n = 0x0C || n = 0x0D || n = 0x20 || n = 0xA0 ||
  n = 0x1680 || (0x2000 ≤ n && n ≤ 0x200A) || n = 0x2028 || n = 0x2029 || n = 0x202F ||
  n = 0x205F || n = 0x3000 || n = 0xFEFF

/-- The method `String.prototype.trim`. -/
def jsTrim (s : String) : String :=
  ⟨((s.data.dropWhile isJsSpace).reverse.dropWhile isJsSpace).reverse⟩

/-- The property `length` of a string: its number of UTF-16 code units. -/
def jsLength (s : String) : Nat :=
  (s.data.map fun c => if c.toNat < 0x10000 then 1 else 2).sum

/-- Whether `needle` is an initial segment of `hay`. -/
def startsWithList : List Char → List Char → Bool
  | [], _ => true
  | _ :: _, [] => false
  | a :: as, b :: bs => a == b && startsWithList as bs

/-- Whether `needle` occurs in `hay` as a contiguous segment. -/
def includesList (needle : List Char) : List Char → Bool
  | [] => needle.isEmpty
  | b :: bs => startsWithList needle (b :: bs) || includesList needle bs

/-- The method `String.prototype.includes`: `jsIncludes s q` is `s.includes(q)`. -/
def jsIncludes (s q : String) : Bool :=
  includesList q.data s.data

/-- The expression `x || ''` on a possibly missing string. -/
def orEmpty (x : Option String) : String :=
  match x with
  | some s => s
  | none => ""

/-- Truthiness of a possibly missing string: missing and `''` are falsy. -/
def truthy (x : Option String) : Bool :=
  match x with
  | some s => s != ""
  | none => false

/-! ## Messages, persistence and rendering -/

/-- The function `showMessage(text, isError)`. -/
def showMessage (st : State) (text : String) (isError : Bool) : State :=
  { st with
    messageText := text
    messageColor := if isError then "var(--danger)" else "var(--accent)"
    messageDisplay := if text != "" then "block" else "none" }

/-- The function `persist()`: writes the whole list; a failing write is caught and reported. -/
def persist (h : Host) (st : State) : State :=
  if h.setItemOk then
    { st with stored := some (h.stringify st.contacts) }
  else
    showMessage st "Could not save locally. Your changes may be lost." true

/-- The replacement function of `escapeHtml`, applied to one character. -/
def escapeChar (ch : Char) : List Char :=
  if ch = '&' then "&amp;".data
  else if ch = '<' then "&lt;".data
  else if ch = '>' then "&gt;".data
  else if ch = '"' then "&quot;".data
  else if ch = '\'' then "&#39;".data
  else [ch]

/-- The function `escapeHtml(s)`. -/
def escapeHtml (s : Option String) : String :=
  if truthy s then ⟨(orEmpty s).data.flatMap escapeChar⟩ else ""

/-- Interpolation `${x}` of a possibly missing string into a template literal. -/
def interpolate (x : Option String) : String :=
  match x with
  | some s => s
  | none => "undefined"

/-- The template literal assigned to `tr.innerHTML` for the contact `c`. -/
def rowHtml (c : Contact) : String :=
  "\n          <td>" ++ escapeHtml c.name ++ "</td>\n          <td>" ++ escapeHtml c.phone ++
  "</td>\n          <td>" ++ escapeHtml (some (orEmpty c.email)) ++
  "</td>\n          <td class=\"contact-actions\">\n            <button class=\"edit\" data-id=\"" ++
  interpolate c.id ++ "\">Edit</button>\n            <button class=\"delete\" data-id=\"" ++
  interpolate c.id ++ "\">Delete</button>\n          </td>\n        "

/-- The list `filtered ?? contacts` that `renderContacts(filtered)` walks through. -/
def renderList (st : State) (filtered : Option (List Contact)) : List Contact :=
  match filtered with
  | some l => l
  | none => st.contacts

/-- The function `renderContacts(filtered)`; `none` is a call without argument. -/
def renderContacts (st : State) (filtered : Option (List Contact)) : State :=
  let list := renderList st filtered
  { st with
    body :=
      if list.length = 0 then
        Body.html "<tr><td class=\"empty\" colspan=\"4\">No contacts found</td></tr>"
      else Body.rows (list.map rowHtml)
    contactCount := "Contacts: " ++ toString st.contacts.length }

/-! ## Validator -/

/-- The character class `\d`. -/
def isDigitChar (c : Char) : Bool :=
  '0' ≤ c && c ≤ '9'

/-- The character class `[\d\s-]`. -/
def isPhoneTailChar (c : Char) : Bool :=
  isDigitChar c || isJsSpace c || c = '-'

/-- The part `\d[\d\s-]{4,}$` of the phone pattern, matched at the start of `cs`. -/
def matchDigitTail : List Char → Bool
  | [] => false
  | d :: rest => isDigitChar d && decide (4 ≤ rest.length) && rest.all isPhoneTailChar

/-- The test `/^\+?\d[\d\s-]{4,}$/.test(phone)`: either the optional `+` takes a leading `+`
and the rest of the pattern matches what follows, or it takes nothing and the rest of the
pattern matches from the first character. -/
def phonePatternTest (phone : String) : Bool :=
  (match phone.data with
    | c :: rest => c == '+' && matchDigitTail rest
    | [] => false) ||
  matchDigitTail phone.data

/-- The function `validateContact({ name, phone })`: `none` is `null`. -/
def validateContact (c : Contact) : Option String :=
  if !truthy c.name || decide (jsLength (jsTrim (orEmpty c.name)) < 2) then
    some "Name should be at least 2 characters."
  else if !truthy c.phone || !phonePatternTest (orEmpty c.phone) then
    some "Phone number appears invalid."
  else none

/-! ## Contact store -/

/-- The method `Array.prototype.findIndex`; `none` is the result `-1`. -/
def findIndex (p : Contact → Bool) : List Contact → Option Nat
  | [] => none
  | c :: cs => if p c then some 0 else (findIndex p cs).map (· + 1)

/-- The function `findContactById(id)`; `none` is `undefined`. -/
def findContactById (st : State) (id : String) : Option Contact :=
  st.contacts.find? fun c => decide (c.id = some id)

/-- One property of the object spread `{ ...c, ...updates }`. -/
def spreadField (old new : Option String) : Option String :=
  match new with
  | some v => some v
  | none => old

/-- The object spread `{ ...c, ...updates }`. -/
def spread (c updates : Contact) : Contact :=
  { id := spreadField c.id updates.id
    name := spreadField c.name updates.name
    phone := spreadField c.phone updates.phone
    email := spreadField c.email updates.email }

/-- The function `addContact(contact)`. Nothing in the `try` block throws, as `persist`
catches its own failure. -/
def addContact (h : Host) (st : State) (contact : Contact) : State :=
  let contact := { contact with id := some (toString h.now) }
  let st := { st with contacts := contact :: st.contacts }
  let st := persist h st
  let st := renderContacts st none
  showMessage st "Contact added." false

/-- The `try` block of `updateContact(id, updates)`; `Except.error m` is `throw new Error(m)`. -/
def updateContactTry (h : Host) (st : State) (id : String) (updates : Contact) :
    Except String State :=
  match findIndex (fun c => decide (c.id = some id)) st.contacts with
  | none => Except.error "Contact not found"
  | some idx =>
    let st :=
      { st with contacts := st.contacts.modify (fun c => spread c updates) idx }
    let st := persist h st
    let st := renderContacts st none
    Except.ok (showMessage st "Contact updated." false)

/-- The function `updateContact(id, updates)`. -/
def updateContact (h : Host) (st : State) (id : String) (updates : Contact) : State :=
  match updateContactTry h st id updates with
  | Except.ok st => st
  | Except.error m => showMessage st ("Update failed: " ++ m) true

/-- The function `deleteContact(id)`. Nothing in the `try` block throws. -/
def deleteContact (h : Host) (st : State) (id : String) : State :=
  if !h.confirmed then st
  else
    let st := { st with contacts := st.contacts.filter fun c => decide (c.id ≠ some id) }
    let st := persist h st
    let st := renderContacts st none
    showMessage st "Contact deleted." false

/-! ## Search filter -/

/-- The argument `applySearch(query)` hands to `renderContacts`: `none` when it calls
`renderContacts()` without argument, else the filtered list. -/
def searchFiltered (h : Host) (st : State) (query : Option String) : Option (List Contact) :=
  let q := h.toLowerCase (jsTrim (orEmpty query))
  if q = "" then none
  else
    some (st.contacts.filter fun c =>
      jsIncludes (h.toLowerCase (orEmpty c.name)) q ||
      jsIncludes (h.toLowerCase (orEmpty c.phone)) q)

/-- The function `applySearch(query)`. -/
def applySearch (h : Host) (st : State) (query : Option String) : State :=
  renderContacts st (searchFiltered h st query)

/-- The list `applySearch(query)` displays: the `list` of the `renderContacts` call it makes. -/
def displayedList (h : Host) (st : State) (query : Option String) : List Contact :=
  renderList st (searchFiltered h st query)

/-! ## Bootstrap loader -/

/-- What `await resp.json()` gives for a response. -/
inductive Payload where
  /-- The body is not JSON: `resp.json()` rejects. -/
  | unparseable
  /-- The body is a JSON array, read as a list of contacts. -/
  | array (data : List Contact)
  /-- The body is JSON for which `Array.isArray` is false. -/
  | nonArray
deriving DecidableEq, Repr

/-- How `await fetch(DATA_URL)` settles. The script does not define `DATA_URL`; what the
request meets is a parameter. -/
inductive FetchOutcome where
  /-- The promise rejects: a transport error (or no `DATA_URL` to evaluate). -/
  | rejected
  /-- A response arrives, with its `ok` flag and its body. -/
  | response (ok : Bool) (payload : Payload)
deriving DecidableEq, Repr

/-- What the browser supplies to `loadContacts`. -/
structure Startup where
  /-- The function `JSON.parse` on the stored entry: `none` when it throws. The script only
  stores serialized contact lists, so an entry that parses is read as a list of contacts. -/
  parse : String → Option (List Contact)
  /-- How the one `fetch(DATA_URL)` settles, when it is made. -/
  fetched : FetchOutcome

/-- The state after `loadContacts()`, with a record of whether `fetch` was called. -/
structure Loaded where
  state : State
  fetchAttempted : Bool
deriving DecidableEq, Repr

/-- The inner `try` block of `loadContacts`; `Except.error` is a rejected `fetch` or
`resp.json()`. -/
def fetchContactsTry (h : Host) (b : Startup) (st : State) : Except Unit State :=
  match b.fetched with
  | FetchOutcome.rejected => Except.error ()
  | FetchOutcome.response false _ => Except.ok { st with contacts := initialContacts }
  | FetchOutcome.response true Payload.unparseable => Except.error ()
  | FetchOutcome.response true (Payload.array data) =>
    Except.ok (persist h { st with contacts := data })
  | FetchOutcome.response true Payload.nonArray =>
    Except.ok (persist h { st with contacts := initialContacts })

/-- The outer `try` block of `loadContacts`; `Except.error` is `JSON.parse` throwing.
`localStorage.getItem` is taken to return normally, with the value `st.stored`. -/
def loadContactsTry (h : Host) (b : Startup) (st : State) : Except Unit Loaded :=
  if truthy st.stored then
    match b.parse (orEmpty st.stored) with
    | some l => Except.ok { state := { st with contacts := l }, fetchAttempted := false }
    | none => Except.error ()
  else
    match fetchContactsTry h b st with
    | Except.ok st => Except.ok { state := st, fetchAttempted := true }
    | Except.error _ =>
      Except.ok { state := { st with contacts := initialContacts }, fetchAttempted := true }

/-- The function `loadContacts()`. Only `JSON.parse` throws into the outer handler, and it
does so before `fetch` is reached. -/
def loadContacts (h : Host) (b : Startup) (st : State) : Loaded :=
  match loadContactsTry h b st with
  | Except.ok r => r
  | Except.error _ =>
    { state := { st with contacts := initialContacts }, fetchAttempted := false }

/-! ## Interaction controller -/

/-- The form elements the submit handler reads and writes. -/
structure Form where
  /-- The property `els.contactId.value`: the cached id, `''` in Add-mode. -/
  contactId : String
  /-- The property `els.name.value`. -/
  name : String
  /-- The property `els.phone.value`. -/
  phone : String
  /-- The property `els.email.value`. -/
  email : String
  /-- The property `els.formTitle.textContent`. -/
  formTitle : String
  /-- The property `els.formError.textContent`. -/
  formError : String
  /-- The property `els.saveBtn.textContent`, `none` when there is no such element. -/
  saveBtn : Option String
deriving DecidableEq, Repr

/-- The page: the state of the list manager and the form. -/
structure Page where
  st : State
  form : Form
deriving DecidableEq, Repr

/-- The function `resetForm()`. -/
def resetForm (f : Form) : Form :=
  { contactId := ""
    name := ""
    phone := ""
    email := ""
    formTitle := "Add Contact"
    formError := ""
    saveBtn := f.saveBtn.map fun _ => "Save" }

/-- The object `contact` the submit handler builds from the form. -/
def formContact (f : Form) : Contact :=
  { id := none
    name := some (jsTrim f.name)
    phone := some (jsTrim f.phone)
    email := some (orEmpty (some (jsTrim f.email))) }

/-- The listener of the `submit` event of the form. -/
def submitHandler (h : Host) (p : Page) : Page :=
  let id := p.form.contactId
  let contact := formContact p.form
  match validateContact contact with
  | some v => { p with form := { p.form with formError := v } }
  | none =>
    let form := { p.form with formError := "" }
    let st := if id != "" then updateContact h p.st id contact else addContact h p.st contact
    { st := st, form := resetForm form }

/-! ## Concrete instances -/

/-- Lower-casing of the letters `A` to `Z`; on ASCII strings this is `toLowerCase`. -/
def asciiLower (s : String) : String :=
  ⟨s.data.map Char.toLower⟩

/-- One `"key":"value"` member of a serialized contact, nothing for a missing property. -/
def jsonMember (key : String) (value : Option String) : List String :=
  match value with
  | some v => ["\"" ++ key ++ "\":\"" ++ v ++ "\""]
  | none => []

/-- A serializer for concrete instances: what `JSON.stringify` yields on contacts whose strings
need no escaping. -/
def sampleStringify (l : List Contact) : String :=
  "[" ++ ",".intercalate (l.map fun c =>
    "\x7b" ++ ",".intercalate (jsonMember "id" c.id ++ jsonMember "name" c.name ++
      jsonMember "phone" c.phone ++ jsonMember "email" c.email) ++ "\x7d") ++ "]"

/-- A host whose clock reads 1700000000000, that confirms and whose storage accepts writes. -/
def sampleHost : Host :=
  { now := 1700000000000
    confirmed := true
    setItemOk := true
    stringify := sampleStringify
    toLowerCase := asciiLower }

/-- The state before `loadContacts`: empty list, nothing stored, nothing shown. -/
def emptyState : State :=
  { contacts := []
    stored := none
    messageText := ""
    messageColor := ""
    messageDisplay := ""
    body := Body.html ""
    contactCount := "" }

/-- The candidate `{ name: "Jo", phone: "12345", email: "" }` of the submit handler. -/
def jo : Contact :=
  { id := none, name := some "Jo", phone := some "12345", email := some "" }

/-- The state holding the three default contacts. -/
def defaultState : State :=
  { emptyState with contacts := initialContacts }

/-- The updates `{ name: "Bo", phone: "12345", email: "" }`, as the submit handler builds them. -/
def bo : Contact :=
  { id := none, name := some "Bo", phone := some "12345", email := some "" }

/-- The query `" bob"`, typed with a leading space. -/
def paddedQuery : Option String :=
  some " bob"

/-- A candidate whose phone holds a tab between two groups of digits. -/
def tabbed : Contact :=
  { id := none, name := some "Al", phone := some "1234\t5678", email := some "" }

/-- A parser for concrete instances: it reads the serializations of the empty list and of
the default contacts, and throws on every other string. -/
def sampleParse (s : String) : Option (List Contact) :=
  [[], initialContacts].find? fun l => sampleStringify l == s

/-- A start in which the request is answered with status 200 and an empty array. -/
def sampleStartup : Startup :=
  { parse := sampleParse
    fetched := FetchOutcome.response true (Payload.array []) }

/-- A start in which the request is answered with success status and a body that is JSON
but not an array. -/
def nonArrayStartup : Startup :=
  { parse := sampleParse
    fetched := FetchOutcome.response true Payload.nonArray }

/-- A start in which the request is answered with HTTP 500. -/
def serverErrorStartup : Startup :=
  { parse := sampleParse
    fetched := FetchOutcome.response false Payload.unparseable }

/-- The host `sampleHost` with a storage that rejects writes. -/
def fullStorageHost : Host :=
  { sampleHost with setItemOk := false }

/-- A state whose stored entry is not JSON. -/
def corruptState : State :=
  { emptyState with stored := some "not json" }

/-- The form filled with `Jo`, `12345` and no email, in Add-mode. -/
def joForm : Form :=
  { contactId := ""
    name := "Jo"
    phone := "12345"
    email := ""
    formTitle := "Add Contact"
    formError := ""
    saveBtn := some "Save" }

/-- The form in Edit-mode for the id `2`, with a name of one letter. -/
def shortNameForm : Form :=
  { contactId := "2"
    name := " A "
    phone := "12345"
    email := ""
    formTitle := "Edit Contact"
    formError := ""
    saveBtn := some "Update" }

/-- A contact whose id holds a double quote, as a stored entry or a fetched array may. -/
def quoted : Contact :=
  { id := some "x\" onclick=\"alert(1)", name := some "Al", phone := some "12345",
    email := some "" }

/-- A start in which the request is answered with status 200 and the array `[jo]`. -/
def joStartup : Startup :=
  { parse := sampleParse
    fetched := FetchOutcome.response true (Payload.array [jo]) }

/-- A state whose stored entry is the serialization of the empty list. -/
def storedEmptyState : State :=
  { emptyState with stored := some (sampleHost.stringify []) }

/-! ## The wording of the specification -/

/-- Spec wording: `field` contains `query` as a case-insensitive substring, that is, the
lower-cased field contains the lower-cased query. -/
def containsIgnoringCase (h : Host) (field query : String) : Bool :=
  jsIncludes (h.toLowerCase field) (h.toLowerCase query)

/-- Spec wording: `phone` is an optional leading `+`, then one decimal digit, then 4 or more
further characters each of which satisfies `further`, with nothing before or after. -/
def PhoneForm (further : Char → Prop) (phone : String) : Prop :=
  ∃ (sign : List Char) (d : Char) (rest : List Char),
    phone.data = sign ++ d :: rest ∧ (sign = [] ∨ sign = ['+']) ∧ isDigitChar d = true ∧
    4 ≤ rest.length ∧ ∀ x ∈ rest, further x

/-- Spec wording: a decimal digit, a space or a hyphen. -/
def DigitSpaceHyphen (x : Char) : Prop :=
  isDigitChar x = true ∨ x = ' ' ∨ x = '-'

/-- A decimal digit, a white space character of the class `\s`, or a hyphen. -/
def DigitWhiteSpaceHyphen (x : Char) : Prop :=
  isDigitChar x = true ∨ isJsSpace x = true ∨ x = '-'

/-- Spec wording: the five entities `&amp;` `&lt;` `&gt;` `&quot;` `&#39;`, each without its
leading `&`. -/
def entityTails : List (List Char) :=
  ["amp;".data, "lt;".data, "gt;".data, "quot;".data, "#39;".data]

/-- Spec wording: every `&` in `l` starts one of the five entities. -/
def AmpersandsStartEntities (l : List Char) : Prop :=
  ∀ pre post, l = pre ++ '&' :: post → ∃ e ∈ entityTails, startsWithList e post = true

/-! ## Decimal rendering of clock values -/

/-- Reading one more decimal digit. -/
def decimalStep (a : Nat) (c : Char) : Nat :=
  10 * a + (c.toNat - 48)

/-! ## Theorems -/

theorem digitChar_value : ∀ m, m < 10 → (Nat.digitChar m).toNat - 48 = m := by decide

theorem foldl_toDigitsCore (fuel : Nat) : ∀ n ds, n < fuel →
    (Nat.toDigitsCore 10 fuel n ds).foldl decimalStep 0 = ds.foldl decimalStep n := by
  induction fuel with
  | zero => intro n ds hn; omega
  | succ f ih =>
    intro n ds hn
    simp only [Nat.toDigitsCore]
    split
    · simp only [List.foldl_cons, decimalStep,
        digitChar_value _ (Nat.mod_lt n (by decide : 0 < 10))]
      congr 1
      omega
    · rw [ih (n / 10) _ (by omega)]
      simp only [List.foldl_cons, decimalStep,
        digitChar_value _ (Nat.mod_lt n (by decide : 0 < 10))]
      congr 1
      omega

/-- Two clock values with the same decimal string are equal. -/
theorem toString_nat_injective {a b : Nat} (hab : toString a = toString b) : a = b := by
  have h1 : Nat.toDigits 10 a = Nat.toDigits 10 b := by
    have := congrArg String.data hab
    simpa [toString, Nat.repr] using this
  have ha := foldl_toDigitsCore (a + 1) a [] (by omega)
  have hb := foldl_toDigitsCore (b + 1) b [] (by omega)
  simp only [Nat.toDigits] at h1
  rw [h1] at ha
  simpa using ha.symm.trans hb

/-! ## What each operation does to the list and to the stored value -/

@[simp] theorem showMessage_contacts (st : State) (t : String) (e : Bool) :
    (showMessage st t e).contacts = st.contacts := rfl

@[simp] theorem showMessage_stored (st : State) (t : String) (e : Bool) :
    (showMessage st t e).stored = st.stored := rfl

@[simp] theorem persist_contacts (h : Host) (st : State) :
    (persist h st).contacts = st.contacts := by
  unfold persist
  split <;> rfl

@[simp] theorem renderContacts_contacts (st : State) (f : Option (List Contact)) :
    (renderContacts st f).contacts = st.contacts := rfl

@[simp] theorem renderContacts_stored (st : State) (f : Option (List Contact)) :
    (renderContacts st f).stored = st.stored := rfl

theorem addContact_contacts (h : Host) (st : State) (c : Contact) :
    (addContact h st c).contacts = { c with id := some (toString h.now) } :: st.contacts := by
  simp [addContact]

theorem deleteContact_contacts (h : Host) (st : State) (id : String)
    (hc : h.confirmed = true) :
    (deleteContact h st id).contacts = st.contacts.filter fun c => decide (c.id ≠ some id) := by
  simp [deleteContact, hc]

theorem findIndex_none {p : Contact → Bool} :
    ∀ {l : List Contact}, findIndex p l = none ↔ ∀ x ∈ l, p x = false
  | [] => by simp [findIndex]
  | c :: cs => by
    have ih := findIndex_none (p := p) (l := cs)
    by_cases hp : p c = true
    · simp [findIndex, hp]
    · simp [findIndex, hp, ih]

/-- A successful `findIndex` splits the list at the first element satisfying `p`. -/
theorem findIndex_some {p : Contact → Bool} :
    ∀ {l : List Contact} {idx : Nat}, findIndex p l = some idx →
      ∃ l1 c l2, l = l1 ++ c :: l2 ∧ l1.length = idx ∧ p c = true ∧ ∀ x ∈ l1, p x = false
  | [], _, h => by simp [findIndex] at h
  | c :: cs, idx, h => by
    by_cases hp : p c = true
    · simp [findIndex, hp] at h
      exact ⟨[], c, cs, rfl, by simpa using h, hp, by simp⟩
    · simp only [findIndex, hp] at h
      cases hrec : findIndex p cs with
      | none => simp [hrec] at h
      | some j =>
        obtain ⟨l1, d, l2, hl, hlen, hd, hbefore⟩ := findIndex_some hrec
        simp [hrec] at h
        refine ⟨c :: l1, d, l2, by simp [hl], by simp [hlen, h], hd, ?_⟩
        intro x hx
        rcases List.mem_cons.1 hx with rfl | hx
        · simpa using hp
        · exact hbefore x hx

theorem modify_at_split (f : Contact → Contact) (c : Contact) (l2 : List Contact) :
    ∀ l1 : List Contact, (l1 ++ c :: l2).modify f l1.length = l1 ++ f c :: l2
  | [] => by simp [List.modify]
  | a :: l1 => by
    have ih := modify_at_split f c l2 l1
    simpa using ih

theorem updateContact_absent (h : Host) (st : State) (id : String) (u : Contact)
    (habs : ∀ c ∈ st.contacts, c.id ≠ some id) :
    updateContactTry h st id u = Except.error "Contact not found" ∧
    updateContact h st id u = showMessage st "Update failed: Contact not found" true := by
  have hnone : findIndex (fun c => decide (c.id = some id)) st.contacts = none :=
    findIndex_none.2 (by simpa using habs)
  have htry : updateContactTry h st id u = Except.error "Contact not found" := by
    simp [updateContactTry, hnone]
  refine ⟨htry, ?_⟩
  simp only [updateContact, htry]
  rfl

/-- When some contact has the id, `updateContact` replaces the first such contact `c` by
`{ ...c, ...updates }` and leaves the contacts before and after it as they are. -/
theorem updateContact_split (h : Host) (st : State) (id : String) (u : Contact)
    (hpres : ∃ c ∈ st.contacts, c.id = some id) :
    ∃ l1 c l2, st.contacts = l1 ++ c :: l2 ∧ c.id = some id ∧ (∀ x ∈ l1, x.id ≠ some id) ∧
      (updateContact h st id u).contacts = l1 ++ spread c u :: l2 := by
  cases hidx : findIndex (fun c => decide (c.id = some id)) st.contacts with
  | none =>
    obtain ⟨c, hc, hid⟩ := hpres
    have := findIndex_none.1 hidx c hc
    simp [hid] at this
  | some idx =>
    obtain ⟨l1, c, l2, hl, hlen, hc, hbefore⟩ := findIndex_some hidx
    refine ⟨l1, c, l2, hl, by simpa using hc, fun x hx => by simpa using hbefore x hx, ?_⟩
    simp only [updateContact, updateContactTry, hidx, showMessage_contacts,
      renderContacts_contacts, persist_contacts]
    rw [hl, ← hlen]
    exact modify_at_split _ c l2 l1

/-! ## C1: `addContact` and the freshness of its id -/

/-- C1, as stated, fails: two valid candidates added while the clock reads the same value
get the same id, so the id given to the second equals the id of a contact already stored. -/
theorem addContact_same_clock_collides :
    validateContact jo = none ∧
    ∃ old ∈ (addContact sampleHost emptyState jo).contacts,
      ∃ new, (addContact sampleHost (addContact sampleHost emptyState jo) jo).contacts.head?
          = some new ∧ new.id = old.id := by
  decide

/-- C1, amended: for every Store, every candidate and every clock value, `addContact` makes
the Store longer by exactly 1 and gives the new contact, placed first, the decimal string of
the clock value as id. That id differs from the id of a contact already stored exactly when
the stored id is not the decimal string of the same clock value: ids that are no decimal
strings and ids from any other clock value, earlier or later, never collide. Two adds at the
same clock value get the same id. -/
theorem addContact_fresh_id (h : Host) (st : State) (c c2 : Contact) :
    (addContact h st c).contacts.length = st.contacts.length + 1 ∧
    (∃ new, (addContact h st c).contacts.head? = some new ∧
      new.id = some (toString h.now) ∧
      (∀ old ∈ st.contacts,
        (old.id ≠ new.id ↔ ∀ t : Nat, old.id = some (toString t) → t ≠ h.now)) ∧
      (∀ t : Nat, (some (toString t) = new.id ↔ t = h.now))) ∧
    (∃ first second rest,
      (addContact h (addContact h st c) c2).contacts = first :: second :: rest ∧
      first.id = second.id) := by
  refine ⟨by simp [addContact_contacts], ⟨{ c with id := some (toString h.now) }, ?_, rfl, ?_, ?_⟩,
    ⟨{ c2 with id := some (toString h.now) }, { c with id := some (toString h.now) },
      st.contacts, ?_, rfl⟩⟩
  · simp [addContact_contacts]
  · intro old _
    constructor
    · intro hne t ht hEq
      subst hEq
      exact hne ht
    · intro hall heq
      exact hall h.now heq rfl
  · intro t
    constructor
    · intro heq
      exact toString_nat_injective (Option.some.inj heq)
    · intro heq
      subst heq
      rfl
  · rw [addContact_contacts, addContact_contacts]

/-! ## C2: distinct ids -/

/-- C2, as stated, fails: from a Store with distinct ids, a second `addContact` at the same
clock value, and an `updateContact` whose updates carry the id of another contact, both end
in a Store where two contacts share an id. -/
theorem ids_distinct_not_invariant :
    ((addContact sampleHost emptyState jo).contacts.map Contact.id).Nodup ∧
    ¬ ((addContact sampleHost (addContact sampleHost emptyState jo) jo).contacts.map
        Contact.id).Nodup ∧
    (initialContacts.map Contact.id).Nodup ∧
    ¬ ((updateContact sampleHost defaultState "2"
        { id := some "1", name := some "Bob", phone := some "12345", email := none }).contacts.map
        Contact.id).Nodup := by
  decide

/-- C2, amended: from a Store whose ids are pairwise distinct, the ids are pairwise distinct
after `addContact` exactly when no stored id is the decimal string of the current clock value;
after `updateContact(id, updates)` exactly when the id is not found, or the updates carry no
id, or they carry the id being updated, or they carry an id no stored contact has; and after
every `deleteContact`, confirmed or declined. -/
theorem ids_distinct_preserved (h : Host) (st : State)
    (hnd : (st.contacts.map Contact.id).Nodup) :
    (∀ c : Contact,
      (((addContact h st c).contacts.map Contact.id).Nodup ↔
        ∀ old ∈ st.contacts, ∀ t : Nat, old.id = some (toString t) → t ≠ h.now)) ∧
    (∀ (id : String) (u : Contact),
      (((updateContact h st id u).contacts.map Contact.id).Nodup ↔
        ((∀ x ∈ st.contacts, x.id ≠ some id) ∨
          ∀ j, u.id = some j → j = id ∨ ∀ x ∈ st.contacts, x.id ≠ some j))) ∧
    (∀ id : String, ((deleteContact h st id).contacts.map Contact.id).Nodup) := by
  refine ⟨?_, ?_, ?_⟩
  · intro c
    rw [addContact_contacts, List.map_cons, List.nodup_cons]
    constructor
    · rintro ⟨hnot, -⟩ old hold t ht hEq
      subst hEq
      exact hnot (List.mem_map.2 ⟨old, hold, ht⟩)
    · intro hclock
      refine ⟨?_, hnd⟩
      intro hmem
      obtain ⟨old, hold, heq⟩ := List.mem_map.1 hmem
      exact hclock old hold h.now heq rfl
  · intro id u
    by_cases hpres : ∃ c ∈ st.contacts, c.id = some id
    · obtain ⟨l1, c, l2, hl, hc, -, hupd⟩ := updateContact_split h st id u hpres
      rw [hupd]
      rw [hl] at hnd
      have hnotabs : ¬ ∀ x ∈ st.contacts, x.id ≠ some id := by
        intro habs
        obtain ⟨x, hx, hxid⟩ := hpres
        exact habs x hx hxid
      rw [or_iff_right hnotabs, hl]
      cases huid : u.id with
      | none =>
        have hsame : (spread c u).id = c.id := by simp [spread, spreadField, huid]
        have hres : ((l1 ++ spread c u :: l2).map Contact.id).Nodup := by
          simpa [hsame] using hnd
        exact ⟨fun _ j hj => by simp at hj, fun _ => hres⟩
      | some j =>
        have hj : (spread c u).id = some j := by simp [spread, spreadField, huid]
        simp only [List.map_append, List.map_cons, List.nodup_append, List.nodup_cons,
          List.disjoint_cons_right, hj, hc] at hnd ⊢
        constructor
        · rintro ⟨-, ⟨hj2, -⟩, hj1, -⟩ j2 hj2eq
          have hjj : j2 = j := (Option.some.inj hj2eq).symm
          subst hjj
          by_cases hji : j2 = id
          · exact Or.inl hji
          · right
            intro x hx hxj
            rcases List.mem_append.1 hx with hx1 | hx2
            · exact hj1 (List.mem_map.2 ⟨x, hx1, hxj⟩)
            · rcases List.mem_cons.1 hx2 with rfl | hx2
              · rw [hc] at hxj
                exact hji (Option.some.inj hxj).symm
              · exact hj2 (List.mem_map.2 ⟨x, hx2, hxj⟩)
        · intro hu
          rcases hu j rfl with rfl | hfresh
          · exact hnd
          · have h1 : some j ∉ l1.map Contact.id := by
              intro hmem
              obtain ⟨x, hx, hxj⟩ := List.mem_map.1 hmem
              exact hfresh x (by simp [hx]) hxj
            have h2 : some j ∉ l2.map Contact.id := by
              intro hmem
              obtain ⟨x, hx, hxj⟩ := List.mem_map.1 hmem
              exact hfresh x (by simp [hx]) hxj
            exact ⟨hnd.1, ⟨h2, hnd.2.1.2⟩, h1, hnd.2.2.2⟩
    · have habs : ∀ c ∈ st.contacts, c.id ≠ some id := fun c hc hid => hpres ⟨c, hc, hid⟩
      rw [(updateContact_absent h st id u habs).2]
      exact ⟨fun _ => Or.inl habs, fun _ => hnd⟩
  · intro id
    by_cases hc : h.confirmed = true
    · rw [deleteContact_contacts h st id hc]
      exact (hnd.sublist (List.Sublist.map _ (List.filter_sublist _)))
    · have : deleteContact h st id = st := by simp [deleteContact, hc]
      rw [this]
      exact hnd

/-- The three default contacts have distinct ids: which adds, updates and deletes keep them
distinct. -/
theorem ids_distinct_preserved_witness :
    (defaultState.contacts.map Contact.id).Nodup ∧
    (∀ c : Contact,
      (((addContact sampleHost defaultState c).contacts.map Contact.id).Nodup ↔
        ∀ old ∈ defaultState.contacts, ∀ t : Nat,
          old.id = some (toString t) → t ≠ sampleHost.now)) ∧
    (∀ (id : String) (u : Contact),
      (((updateContact sampleHost defaultState id u).contacts.map Contact.id).Nodup ↔
        ((∀ x ∈ defaultState.contacts, x.id ≠ some id) ∨
          ∀ j, u.id = some j → j = id ∨ ∀ x ∈ defaultState.contacts, x.id ≠ some j))) ∧
    (∀ id : String, ((deleteContact sampleHost defaultState id).contacts.map Contact.id).Nodup) :=
  have hnd : (defaultState.contacts.map Contact.id).Nodup := by decide
  ⟨hnd, ids_distinct_preserved sampleHost defaultState hnd⟩

/-! ## C3: updating the name only -/

/-- C3: for every Store and every id present in it, `updateContact(id, { name: X })` replaces
the first contact `c` with that id by `c` with name `X` (same id, phone and email), leaves
every contact before and after it unchanged, and leaves the length of the Store unchanged. -/
theorem updateContact_name_only (h : Host) (st : State) (id X : String)
    (hpres : ∃ c ∈ st.contacts, c.id = some id) :
    (updateContact h st id
      { id := none, name := some X, phone := none, email := none }).contacts.length
      = st.contacts.length ∧
    ∃ l1 c l2, st.contacts = l1 ++ c :: l2 ∧ c.id = some id ∧ (∀ x ∈ l1, x.id ≠ some id) ∧
      (updateContact h st id
        { id := none, name := some X, phone := none, email := none }).contacts
        = l1 ++ { id := c.id, name := some X, phone := c.phone, email := c.email } :: l2 := by
  obtain ⟨l1, c, l2, hl, hc, hbefore, hupd⟩ :=
    updateContact_split h st id { id := none, name := some X, phone := none, email := none } hpres
  refine ⟨by rw [hupd, hl]; simp, l1, c, l2, hl, hc, hbefore, ?_⟩
  rw [hupd]
  rfl

/-- Renaming the second default contact. -/
theorem updateContact_name_only_witness :
    (∃ c ∈ defaultState.contacts, c.id = some "2") ∧
    (updateContact sampleHost defaultState "2"
      { id := none, name := some "X", phone := none, email := none }).contacts.length
      = defaultState.contacts.length ∧
    ∃ l1 c l2, defaultState.contacts = l1 ++ c :: l2 ∧ c.id = some "2" ∧
      (∀ x ∈ l1, x.id ≠ some "2") ∧
      (updateContact sampleHost defaultState "2"
        { id := none, name := some "X", phone := none, email := none }).contacts
        = l1 ++ { id := c.id, name := some "X", phone := c.phone, email := c.email } :: l2 :=
  have hpres : ∃ c ∈ defaultState.contacts, c.id = some "2" := by decide
  ⟨hpres, updateContact_name_only sampleHost defaultState "2" "X" hpres⟩

/-! ## C4: the id under `updateContact` -/

/-- C4, as stated, fails: updates that carry an `id` overwrite the id of the record, and
`findContactById` with the original id no longer finds it. -/
theorem updateContact_overwrites_id :
    (∃ c ∈ initialContacts, c.id = some "2") ∧
    ((updateContact sampleHost defaultState "2"
        { id := some "9", name := none, phone := none, email := none }).contacts.get? 1).map
      Contact.id = some (some "9") ∧
    findContactById
      (updateContact sampleHost defaultState "2"
        { id := some "9", name := none, phone := none, email := none }) "2" = none := by
  decide

/-- C4, amended: for every Store, every id present in it and every updates object that
carries no id (or the same id), the record `updateContact(id, updates)` writes at the updated
position still has that id, and `findContactById(id)` returns that record. -/
theorem updateContact_keeps_id (h : Host) (st : State) (id : String) (u : Contact)
    (hpres : ∃ c ∈ st.contacts, c.id = some id)
    (hu : u.id = none ∨ u.id = some id) :
    ∃ l1 c l2, st.contacts = l1 ++ c :: l2 ∧ c.id = some id ∧
      (updateContact h st id u).contacts = l1 ++ spread c u :: l2 ∧
      (spread c u).id = some id ∧
      findContactById (updateContact h st id u) id = some (spread c u) := by
  obtain ⟨l1, c, l2, hl, hc, hbefore, hupd⟩ := updateContact_split h st id u hpres
  have hid : (spread c u).id = some id := by
    rcases hu with hu | hu <;> simp [spread, spreadField, hu, hc]
  refine ⟨l1, c, l2, hl, hc, hupd, hid, ?_⟩
  simp only [findContactById, hupd]
  rw [List.find?_append]
  have hnone : List.find? (fun c => decide (c.id = some id)) l1 = none := by
    rw [List.find?_eq_none]
    intro x hx
    simpa using hbefore x hx
  simp [hnone, hid]

/-- Updating name and phone of the second default contact, as the submit handler does. -/
theorem updateContact_keeps_id_witness :
    (∃ c ∈ defaultState.contacts, c.id = some "2") ∧
    (bo.id = none ∨ bo.id = some "2") ∧
    ∃ l1 c l2, defaultState.contacts
        = l1 ++ c :: l2 ∧ c.id = some "2" ∧
      (updateContact sampleHost defaultState "2"
        bo).contacts
        = l1 ++ spread c bo :: l2 ∧
      (spread c bo).id = some "2" ∧
      findContactById
        (updateContact sampleHost defaultState "2"
          bo) "2"
        = some (spread c bo) :=
  have hpres : ∃ c ∈ defaultState.contacts,
      c.id = some "2" := by decide
  ⟨hpres, Or.inl rfl,
    updateContact_keeps_id sampleHost _ "2"
      bo hpres
      (Or.inl rfl)⟩

/-! ## C5: `updateContact` on an id that is not there -/

/-- C5: for every Store and every id no contact in it has, the `try` block of
`updateContact(id, updates)` throws `Contact not found`, the handler turns that into the
error message `Update failed: Contact not found`, and the result is the state before the call
with only the message area changed: same Store, same stored value, same table and count. -/
theorem updateContact_not_found (h : Host) (st : State) (id : String) (u : Contact)
    (habs : ∀ c ∈ st.contacts, c.id ≠ some id) :
    updateContactTry h st id u = Except.error "Contact not found" ∧
    updateContact h st id u =
      { st with
        messageText := "Update failed: Contact not found"
        messageColor := "var(--danger)"
        messageDisplay := "block" } ∧
    (updateContact h st id u).contacts = st.contacts ∧
    (updateContact h st id u).stored = st.stored := by
  obtain ⟨htry, hupd⟩ := updateContact_absent h st id u habs
  refine ⟨htry, ?_, by rw [hupd]; rfl, by rw [hupd]; rfl⟩
  rw [hupd]
  rfl

/-- Updating the id `7`, which none of the three default contacts has. -/
theorem updateContact_not_found_witness :
    (∀ c ∈ defaultState.contacts, c.id ≠ some "7") ∧
    updateContactTry sampleHost defaultState "7" jo = Except.error "Contact not found" ∧
    updateContact sampleHost defaultState "7" jo =
      { defaultState with
        messageText := "Update failed: Contact not found"
        messageColor := "var(--danger)"
        messageDisplay := "block" } ∧
    (updateContact sampleHost defaultState "7" jo).contacts = defaultState.contacts ∧
    (updateContact sampleHost defaultState "7" jo).stored = defaultState.stored :=
  have habs : ∀ c ∈ defaultState.contacts, c.id ≠ some "7" := by decide
  ⟨habs, updateContact_not_found sampleHost defaultState "7" jo habs⟩

/-! ## C6: `deleteContact` -/

/-- C6: for every Store and every id, a confirmed `deleteContact(id)` leaves the contacts
whose id differs from `id`, in their original order, and nothing else; `findContactById(id)`
then returns nothing; and when no contact had that id the Store is unchanged. -/
theorem deleteContact_removes (h : Host) (st : State) (id : String)
    (hc : h.confirmed = true) :
    (deleteContact h st id).contacts = st.contacts.filter (fun c => decide (c.id ≠ some id)) ∧
    findContactById (deleteContact h st id) id = none ∧
    ((∀ c ∈ st.contacts, c.id ≠ some id) →
      (deleteContact h st id).contacts = st.contacts ∧
      (deleteContact h st id).contacts.length = st.contacts.length) := by
  have hdel := deleteContact_contacts h st id hc
  refine ⟨hdel, ?_, ?_⟩
  · simp only [findContactById, hdel]
    rw [List.find?_eq_none]
    intro x hx
    have := (List.mem_filter.1 hx).2
    simpa using this
  · intro habs
    have : (deleteContact h st id).contacts = st.contacts := by
      rw [hdel, List.filter_eq_self]
      intro x hx
      simpa using habs x hx
    exact ⟨this, by rw [this]⟩

/-- Deleting the second default contact. -/
theorem deleteContact_removes_witness :
    sampleHost.confirmed = true ∧
    (deleteContact sampleHost defaultState "2").contacts
      = defaultState.contacts.filter (fun c => decide (c.id ≠ some "2")) ∧
    findContactById (deleteContact sampleHost defaultState "2") "2" = none ∧
    ((∀ c ∈ defaultState.contacts, c.id ≠ some "2") →
      (deleteContact sampleHost defaultState "2").contacts = defaultState.contacts ∧
      (deleteContact sampleHost defaultState "2").contacts.length
        = defaultState.contacts.length) :=
  ⟨rfl, deleteContact_removes sampleHost defaultState "2" rfl⟩

/-! ## The search filter: auxiliary facts -/

theorem includesList_nil : ∀ l : List Char, includesList [] l = true
  | [] => rfl
  | _ :: _ => rfl

theorem jsIncludes_empty (s : String) : jsIncludes s "" = true :=
  includesList_nil s.data

theorem jsTrim_blank (s : String) (hblank : ∀ ch ∈ s.data, isJsSpace ch = true) :
    jsTrim s = "" := by
  have h1 : s.data.dropWhile isJsSpace = [] := List.dropWhile_eq_nil_iff.2 hblank
  simp [jsTrim, h1]

/-! ## C7: what the search displays -/

/-- C7, as stated, fails: the query is trimmed before it is matched, so for the query
`" bob"` the table shows the row of a contact of which neither the name nor the phone
contains the query (with its leading space) as a case-insensitive substring; and for the
query of two spaces it shows the rows of contacts of which neither the name nor the phone
contains two spaces. -/
theorem applySearch_matches_trimmed_query :
    (∃ c ∈ displayedList sampleHost defaultState paddedQuery,
      containsIgnoringCase sampleHost (orEmpty c.name) (orEmpty paddedQuery) = false ∧
      containsIgnoringCase sampleHost (orEmpty c.phone) (orEmpty paddedQuery) = false) ∧
    (∃ c ∈ displayedList sampleHost defaultState (some "  "),
      containsIgnoringCase sampleHost (orEmpty c.name) "  " = false ∧
      containsIgnoringCase sampleHost (orEmpty c.phone) "  " = false) ∧
    (applySearch sampleHost defaultState paddedQuery).body
      = Body.rows ((displayedList sampleHost defaultState paddedQuery).map rowHtml) ∧
    (applySearch sampleHost defaultState (some "  ")).body
      = Body.rows ((displayedList sampleHost defaultState (some "  ")).map rowHtml) :=
  ⟨by decide, by decide, rfl, rfl⟩

/-- C7, amended: for every Store and every query, the table body after `applySearch(query)`
holds one row for each contact whose name or phone contains the trimmed query as a
case-insensitive substring, in Store order, and nothing else (for a query that trims to
nothing, a row for every contact; the placeholder row when no contact is left). The email
plays no part in the test. Only the table body and the count label change. -/
theorem applySearch_displays (h : Host) (st : State) (query : Option String) :
    applySearch h st query =
      { st with
        body :=
          if (st.contacts.filter (fun c =>
              containsIgnoringCase h (orEmpty c.name) (jsTrim (orEmpty query)) ||
              containsIgnoringCase h (orEmpty c.phone) (jsTrim (orEmpty query)))).length = 0
          then Body.html "<tr><td class=\"empty\" colspan=\"4\">No contacts found</td></tr>"
          else Body.rows ((st.contacts.filter (fun c =>
              containsIgnoringCase h (orEmpty c.name) (jsTrim (orEmpty query)) ||
              containsIgnoringCase h (orEmpty c.phone) (jsTrim (orEmpty query)))).map rowHtml)
        contactCount := "Contacts: " ++ toString st.contacts.length } ∧
    displayedList h st query =
      st.contacts.filter (fun c =>
        containsIgnoringCase h (orEmpty c.name) (jsTrim (orEmpty query)) ||
        containsIgnoringCase h (orEmpty c.phone) (jsTrim (orEmpty query))) ∧
    (∀ c, c ∈ displayedList h st query ↔
      c ∈ st.contacts ∧
        (containsIgnoringCase h (orEmpty c.name) (jsTrim (orEmpty query)) = true ∨
         containsIgnoringCase h (orEmpty c.phone) (jsTrim (orEmpty query)) = true)) := by
  have heq : displayedList h st query =
      st.contacts.filter (fun c =>
        containsIgnoringCase h (orEmpty c.name) (jsTrim (orEmpty query)) ||
        containsIgnoringCase h (orEmpty c.phone) (jsTrim (orEmpty query))) := by
    by_cases hq : h.toLowerCase (jsTrim (orEmpty query)) = ""
    · have hall : st.contacts.filter (fun c =>
          containsIgnoringCase h (orEmpty c.name) (jsTrim (orEmpty query)) ||
          containsIgnoringCase h (orEmpty c.phone) (jsTrim (orEmpty query))) = st.contacts := by
        rw [List.filter_eq_self]
        intro c _
        simp [containsIgnoringCase, hq, jsIncludes_empty]
      rw [hall]
      simp [displayedList, searchFiltered, hq, renderList]
    · simp [displayedList, searchFiltered, hq, renderList, containsIgnoringCase]
  refine ⟨?_, heq, ?_⟩
  · rw [← heq]
    rfl
  · intro c
    rw [heq, List.mem_filter, Bool.or_eq_true]

/-! ## C8: the blank query -/

/-- C8: for every Store and every query that is missing, empty or made of white space only,
the table body after `applySearch(query)` holds one row for each contact of the full Store,
in Store order (the placeholder row when the Store is empty): `applySearch` calls
`renderContacts()` without a filtered list. Only the table body and the count label change.
(Lower-casing the empty string is taken to give the empty string, as `toLowerCase` does.) -/
theorem applySearch_blank_query (h : Host) (st : State) (query : Option String)
    (hlow : h.toLowerCase "" = "")
    (hblank : ∀ ch ∈ (orEmpty query).data, isJsSpace ch = true) :
    applySearch h st query =
      { st with
        body :=
          if st.contacts.length = 0
          then Body.html "<tr><td class=\"empty\" colspan=\"4\">No contacts found</td></tr>"
          else Body.rows (st.contacts.map rowHtml)
        contactCount := "Contacts: " ++ toString st.contacts.length } ∧
    displayedList h st query = st.contacts ∧
    applySearch h st query = renderContacts st none := by
  have hq : h.toLowerCase (jsTrim (orEmpty query)) = "" := by
    rw [jsTrim_blank _ hblank, hlow]
  have happ : applySearch h st query = renderContacts st none := by
    simp [applySearch, searchFiltered, hq]
  refine ⟨?_, ?_, happ⟩
  · rw [happ]
    rfl
  · simp [displayedList, searchFiltered, hq, renderList]

/-- The query of two spaces on the three default contacts: the table shows all three. -/
theorem applySearch_blank_query_witness :
    sampleHost.toLowerCase "" = "" ∧
    (∀ ch ∈ (orEmpty (some "  ")).data, isJsSpace ch = true) ∧
    (applySearch sampleHost defaultState (some "  ")).body
      = Body.rows (initialContacts.map rowHtml) ∧
    displayedList sampleHost defaultState (some "  ") = defaultState.contacts ∧
    applySearch sampleHost defaultState (some "  ") = renderContacts defaultState none :=
  ⟨by decide, by decide,
    by rw [(applySearch_blank_query sampleHost defaultState (some "  ") (by decide)
      (by decide)).1]; rfl,
    (applySearch_blank_query sampleHost defaultState (some "  ") (by decide) (by decide)).2⟩

/-! ## The validator: auxiliary facts -/

theorem matchDigitTail_iff (cs : List Char) :
    matchDigitTail cs = true ↔
      ∃ d rest, cs = d :: rest ∧ isDigitChar d = true ∧ 4 ≤ rest.length ∧
        ∀ x ∈ rest, isPhoneTailChar x = true := by
  cases cs with
  | nil => simp [matchDigitTail]
  | cons d rest =>
    simp only [matchDigitTail, Bool.and_eq_true, decide_eq_true_eq, List.all_eq_true,
      List.cons.injEq]
    constructor
    · rintro ⟨⟨hd, hlen⟩, hall⟩
      exact ⟨d, rest, ⟨rfl, rfl⟩, hd, hlen, hall⟩
    · rintro ⟨d', rest', ⟨rfl, rfl⟩, hd, hlen, hall⟩
      exact ⟨⟨hd, hlen⟩, hall⟩

theorem isPhoneTailChar_iff (x : Char) :
    isPhoneTailChar x = true ↔ DigitWhiteSpaceHyphen x := by
  simp [isPhoneTailChar, DigitWhiteSpaceHyphen, or_assoc]

/-- The pattern test accepts exactly the strings of the form: optional `+`, a digit, then 4
or more characters of the class `[\d\s-]`. -/
theorem phonePatternTest_iff (p : String) :
    phonePatternTest p = true ↔ PhoneForm DigitWhiteSpaceHyphen p := by
  unfold phonePatternTest PhoneForm
  rw [Bool.or_eq_true, matchDigitTail_iff]
  constructor
  · rintro (h | ⟨d, rest, hp, hd, hlen, hall⟩)
    · cases hdata : p.data with
      | nil => simp [hdata] at h
      | cons c cs =>
        simp only [hdata, Bool.and_eq_true, beq_iff_eq] at h
        obtain ⟨hc, hm⟩ := h
        obtain ⟨d, rest, hcs, hd, hlen, hall⟩ := (matchDigitTail_iff cs).1 hm
        exact ⟨['+'], d, rest, by simp [hc, hcs], Or.inr rfl, hd, hlen,
          fun x hx => (isPhoneTailChar_iff x).1 (hall x hx)⟩
    · exact ⟨[], d, rest, by simp [hp], Or.inl rfl, hd, hlen,
        fun x hx => (isPhoneTailChar_iff x).1 (hall x hx)⟩
  · rintro ⟨sign, d, rest, hp, hsign | hsign, hd, hlen, hall⟩
    · subst hsign
      exact Or.inr ⟨d, rest, by simpa using hp, hd, hlen,
        fun x hx => (isPhoneTailChar_iff x).2 (hall x hx)⟩
    · subst hsign
      left
      have hp' : p.data = '+' :: d :: rest := by simpa using hp
      simp only [hp', beq_self_eq_true, Bool.true_and]
      exact (matchDigitTail_iff _).2 ⟨d, rest, rfl, hd, hlen,
        fun x hx => (isPhoneTailChar_iff x).2 (hall x hx)⟩

theorem phonePatternTest_empty : phonePatternTest "" = false := by decide

theorem jsLength_jsTrim_empty : jsLength (jsTrim "") = 0 := by decide

/-- The first test of `validateContact`, spelled out. -/
theorem validateContact_name_fails (c : Contact) :
    validateContact c = some "Name should be at least 2 characters." ↔
      c.name = none ∨ ∃ n, c.name = some n ∧ jsLength (jsTrim n) < 2 := by
  obtain ⟨i, n, p, e⟩ := c
  cases n with
  | none => simp [validateContact, truthy]
  | some n =>
    by_cases hn : n = ""
    · subst hn
      simp [validateContact, truthy, orEmpty, jsLength_jsTrim_empty]
    · by_cases hlen : jsLength (jsTrim n) < 2
      · simp [validateContact, truthy, orEmpty, hn, hlen]
      · simp only [validateContact, truthy, orEmpty, hlen, decide_False, Bool.or_false]
        have hne : (n != "") = true := by simpa using hn
        simp only [hne, Bool.not_true, Bool.false_eq_true, ↓reduceIte, reduceCtorEq, false_or,
          Option.some.injEq, exists_eq_left', iff_false]
        split <;> simp <;> omega

/-- The outcome `null` of `validateContact`, spelled out. -/
theorem validateContact_passes (c : Contact) :
    validateContact c = none ↔
      (∃ n, c.name = some n ∧ 2 ≤ jsLength (jsTrim n)) ∧
      ∃ p, c.phone = some p ∧ phonePatternTest p = true := by
  obtain ⟨i, n, p, e⟩ := c
  cases n with
  | none => simp [validateContact, truthy]
  | some n =>
    by_cases hn : n = ""
    · subst hn
      simp [validateContact, truthy, orEmpty, jsLength_jsTrim_empty]
    · have hne : (n != "") = true := by simpa using hn
      by_cases hlen : jsLength (jsTrim n) < 2
      · simp [validateContact, truthy, orEmpty, hlen]
      · have hlen' : 2 ≤ jsLength (jsTrim n) := by omega
        cases p with
        | none => simp [validateContact, truthy, orEmpty, hlen, hne]
        | some p =>
          by_cases hp : p = ""
          · subst hp
            simp [validateContact, truthy, orEmpty, hlen, hne, phonePatternTest_empty]
          · have hpe : (p != "") = true := by simpa using hp
            simp [validateContact, truthy, orEmpty, hlen, hne, hpe, hlen']

/-! ## C9: the name check comes first -/

/-- C9: for every candidate, `validateContact` returns the name-length message exactly when
the name is missing or its trimmed `length` is less than 2, whatever the phone is; it
returns `null` exactly when the trimmed name has `length` at least 2 and the phone passes the
pattern test; and the email (like the id) never affects the result. -/
theorem validateContact_name_first (c : Contact) :
    (validateContact c = some "Name should be at least 2 characters." ↔
      c.name = none ∨ ∃ n, c.name = some n ∧ jsLength (jsTrim n) < 2) ∧
    (validateContact c = none ↔
      (∃ n, c.name = some n ∧ 2 ≤ jsLength (jsTrim n)) ∧
      ∃ p, c.phone = some p ∧ phonePatternTest p = true) ∧
    (∀ e i : Option String, validateContact { c with email := e, id := i } = validateContact c) :=
  ⟨validateContact_name_fails c, validateContact_passes c, fun _ _ => rfl⟩

/-! ## C10: the phone pattern -/

/-- C10, as stated, fails: the class `\s` of the pattern takes more than the space, so a
phone with a tab between its digits is not of the stated form (digits, spaces and hyphens
only) and yet `validateContact` returns `null` for it, not the phone-format message. -/
theorem validateContact_accepts_tab :
    (∃ n, tabbed.name = some n ∧ 2 ≤ jsLength (jsTrim n)) ∧
    tabbed.phone = some "1234\t5678" ∧
    ¬ PhoneForm DigitSpaceHyphen "1234\t5678" ∧
    validateContact tabbed = none := by
  refine ⟨⟨"Al", rfl, by decide⟩, rfl, ?_, by decide⟩
  rintro ⟨sign, d, rest, hp, hsign | hsign, -, -, hall⟩
  · subst hsign
    have hp' : ['1', '2', '3', '4', '\t', '5', '6', '7', '8'] = d :: rest := hp
    have hrest : rest = ['2', '3', '4', '\t', '5', '6', '7', '8'] := by
      injection hp' with _ h2
      exact h2.symm
    have htab : DigitSpaceHyphen '\t' := hall '\t' (by simp [hrest])
    revert htab
    unfold DigitSpaceHyphen
    decide
  · subst hsign
    have hp' : ['1', '2', '3', '4', '\t', '5', '6', '7', '8'] = '+' :: d :: rest := hp
    injection hp' with h1 _
    revert h1
    decide

/-- C10, amended: for every candidate whose name passes the name check, `validateContact`
returns the phone-format message if and only if the phone is missing or is not of the form:
an optional leading `+`, then one decimal digit, then 4 or more further characters each of
which is a decimal digit, a white space character (space, tab, line break, no-break space and
the other characters of the class `\s`) or a hyphen, with nothing before or after. -/
theorem validateContact_phone_form (c : Contact)
    (hname : ∃ n, c.name = some n ∧ 2 ≤ jsLength (jsTrim n)) :
    validateContact c = some "Phone number appears invalid." ↔
      c.phone = none ∨ ∃ p, c.phone = some p ∧ ¬ PhoneForm DigitWhiteSpaceHyphen p := by
  have hnot : validateContact c ≠ some "Name should be at least 2 characters." := by
    rw [Ne, validateContact_name_fails]
    obtain ⟨n, hn, hlen⟩ := hname
    rintro (h | ⟨m, hm, hlt⟩)
    · simp [hn] at h
    · rw [hn] at hm
      cases hm
      omega
  have hcases : validateContact c = some "Phone number appears invalid." ↔
      validateContact c ≠ none := by
    constructor
    · intro h
      simp [h]
    · intro h
      unfold validateContact at h hnot ⊢
      split at h
      · rename_i h1
        simp [h1] at hnot
      · split at h
        · rename_i h1 h2
          simp [h1, h2]
        · exact absurd rfl h
  rw [hcases, Ne, validateContact_passes]
  constructor
  · intro h
    cases hp : c.phone with
    | none => exact Or.inl rfl
    | some p =>
      refine Or.inr ⟨p, rfl, fun hform => h ⟨hname, p, hp, (phonePatternTest_iff p).2 hform⟩⟩
  · rintro (h | ⟨p, hp, hform⟩) ⟨-, q, hq, htest⟩
    · simp [h] at hq
    · rw [hp] at hq
      cases hq
      exact hform ((phonePatternTest_iff p).1 htest)

/-- The candidate `tabbed`, whose phone is of the amended form, and the phone `abc`. -/
theorem validateContact_phone_form_witness :
    (∃ n, ({ tabbed with phone := some "abc" } : Contact).name = some n ∧
      2 ≤ jsLength (jsTrim n)) ∧
    (validateContact { tabbed with phone := some "abc" } = some "Phone number appears invalid." ↔
      ({ tabbed with phone := some "abc" } : Contact).phone = none ∨
      ∃ p, ({ tabbed with phone := some "abc" } : Contact).phone = some p ∧
        ¬ PhoneForm DigitWhiteSpaceHyphen p) :=
  ⟨⟨"Al", rfl, by decide⟩,
    validateContact_phone_form { tabbed with phone := some "abc" } ⟨"Al", rfl, by decide⟩⟩

/-! ## The loader: auxiliary facts -/

theorem persist_stored_ok (h : Host) (st : State) (hw : h.setItemOk = true) :
    persist h st = { st with stored := some (h.stringify st.contacts) } := by
  simp [persist, hw]

theorem persist_stored_fail (h : Host) (st : State) (hw : h.setItemOk = false) :
    persist h st = showMessage st "Could not save locally. Your changes may be lost." true := by
  simp [persist, hw]

/-- With nothing usable stored, `loadContacts` is the inner `try` block and its handler. -/
theorem loadContacts_no_entry (h : Host) (b : Startup) (st : State)
    (hno : truthy st.stored = false) :
    loadContacts h b st =
      match fetchContactsTry h b st with
      | Except.ok st1 => { state := st1, fetchAttempted := true }
      | Except.error _ =>
        { state := { st with contacts := initialContacts }, fetchAttempted := true } := by
  simp only [loadContacts, loadContactsTry, hno, Bool.false_eq_true, ↓reduceIte]
  cases fetchContactsTry h b st <;> rfl

/-- With a non-empty stored entry, `loadContacts` is `JSON.parse` and the outer handler. -/
theorem loadContacts_entry (h : Host) (b : Startup) (st : State)
    (hyes : truthy st.stored = true) :
    loadContacts h b st =
      match b.parse (orEmpty st.stored) with
      | some l => { state := { st with contacts := l }, fetchAttempted := false }
      | none => { state := { st with contacts := initialContacts }, fetchAttempted := false } := by
  simp only [loadContacts, loadContactsTry, hyes, ↓reduceIte]
  cases b.parse (orEmpty st.stored) <;> rfl

/-! ## C11: the fallback to the default contacts -/

/-- C11, as stated, fails: a response with success status and a payload that is not an array
makes `loadContacts` take the defaults and then call `persist()`, so the defaults are written
to the storage that was empty. -/
theorem loadContacts_nonArray_persists :
    emptyState.stored = none ∧
    (loadContacts sampleHost nonArrayStartup emptyState).state.contacts = initialContacts ∧
    (loadContacts sampleHost nonArrayStartup emptyState).state.stored
      = some (sampleHost.stringify initialContacts) ∧
    (loadContacts sampleHost nonArrayStartup emptyState).state.stored ≠ emptyState.stored :=
  ⟨rfl, rfl, rfl, by decide⟩

/-- C11, amended: for every bootstrap with no persisted data, when the fetch fails by a
transport error, by a non-success status or by a body that is not JSON, `loadContacts`
changes nothing but the Store, which becomes the three default contacts: nothing is written
to storage. When the response has success status and a payload that is not an array, the
Store becomes the three default contacts as well and `persist()` is called on them, so the
stored value becomes their serialization when the write succeeds. -/
theorem loadContacts_fetch_failure (h : Host) (b : Startup) (st : State)
    (hno : truthy st.stored = false) :
    ((b.fetched = FetchOutcome.rejected ∨ (∃ p, b.fetched = FetchOutcome.response false p) ∨
        b.fetched = FetchOutcome.response true Payload.unparseable) →
      loadContacts h b st =
        { state := { st with contacts := initialContacts }, fetchAttempted := true } ∧
      (loadContacts h b st).state.stored = st.stored) ∧
    (b.fetched = FetchOutcome.response true Payload.nonArray →
      loadContacts h b st =
        { state := persist h { st with contacts := initialContacts }, fetchAttempted := true } ∧
      (loadContacts h b st).state.contacts = initialContacts ∧
      (h.setItemOk = true →
        (loadContacts h b st).state.stored = some (h.stringify initialContacts))) := by
  rw [loadContacts_no_entry h b st hno]
  constructor
  · rintro (hf | ⟨p, hf⟩ | hf) <;> simp [fetchContactsTry, hf]
  · intro hf
    simp only [fetchContactsTry, hf, persist_contacts, true_and]
    intro hw
    rw [persist_stored_ok h _ hw]

/-- The start answered with HTTP 500, nothing being stored. -/
theorem loadContacts_fetch_failure_witness :
    truthy emptyState.stored = false ∧
    serverErrorStartup.fetched = FetchOutcome.response false Payload.unparseable ∧
    loadContacts sampleHost serverErrorStartup emptyState =
      { state := { emptyState with contacts := initialContacts }, fetchAttempted := true } ∧
    (loadContacts sampleHost serverErrorStartup emptyState).state.stored = emptyState.stored :=
  ⟨rfl, rfl, (loadContacts_fetch_failure sampleHost serverErrorStartup emptyState rfl).1
    (Or.inr (Or.inl ⟨Payload.unparseable, rfl⟩))⟩

/-! ## C12: a stored list is used as it is -/

/-- C12: for every list `L` of contacts, the empty list included, whose serialization is the
stored value, `loadContacts` changes nothing but the Store, which becomes exactly `L`: it does
not call `fetch` and writes nothing to storage. (`JSON.parse` is taken to read back what
`JSON.stringify` wrote, and a serialization is never the empty string.) -/
theorem loadContacts_stored_list (h : Host) (b : Startup) (st : State) (L : List Contact)
    (hstored : st.stored = some (h.stringify L))
    (hne : h.stringify L ≠ "")
    (hround : b.parse (h.stringify L) = some L) :
    loadContacts h b st = { state := { st with contacts := L }, fetchAttempted := false } ∧
    (loadContacts h b st).state.contacts = L ∧
    (loadContacts h b st).fetchAttempted = false ∧
    (loadContacts h b st).state.stored = st.stored := by
  have htruthy : truthy st.stored = true := by simp [truthy, hstored, hne]
  have hload : loadContacts h b st =
      { state := { st with contacts := L }, fetchAttempted := false } := by
    rw [loadContacts_entry h b st htruthy, hstored]
    simp only [orEmpty, hround]
  rw [hload]
  exact ⟨rfl, rfl, rfl, rfl⟩

/-- The stored empty list: used as it is, though the request would give another array. -/
theorem loadContacts_stored_list_witness :
    storedEmptyState.stored = some (sampleHost.stringify []) ∧
    sampleHost.stringify [] ≠ "" ∧
    joStartup.parse (sampleHost.stringify []) = some [] ∧
    loadContacts sampleHost joStartup storedEmptyState =
      { state := { storedEmptyState with contacts := [] }, fetchAttempted := false } ∧
    (loadContacts sampleHost joStartup storedEmptyState).state.contacts = [] ∧
    (loadContacts sampleHost joStartup storedEmptyState).fetchAttempted = false ∧
    (loadContacts sampleHost joStartup storedEmptyState).state.stored
      = storedEmptyState.stored :=
  ⟨rfl, by decide, by decide,
    loadContacts_stored_list sampleHost joStartup storedEmptyState [] rfl (by decide)
      (by decide)⟩

/-! ## C13: a stored value that does not deserialize -/

/-- C13, as stated, fails: with a stored value that is not JSON and a fetch that would give
the array `[jo]`, `loadContacts` ends with the three default contacts, without calling
`fetch` and without writing, whereas with no stored value it ends with `[jo]`, fetched and
written. -/
theorem loadContacts_corrupt_skips_fetch :
    corruptState.stored = some "not json" ∧
    joStartup.parse "not json" = none ∧
    (loadContacts sampleHost joStartup corruptState).state.contacts = initialContacts ∧
    (loadContacts sampleHost joStartup corruptState).fetchAttempted = false ∧
    (loadContacts sampleHost joStartup corruptState).state.stored = some "not json" ∧
    (loadContacts sampleHost joStartup emptyState).state.contacts = [jo] ∧
    (loadContacts sampleHost joStartup emptyState).fetchAttempted = true ∧
    (loadContacts sampleHost joStartup emptyState).state.stored
      = some (sampleHost.stringify [jo]) := by
  decide

/-- C13, amended: a stored value that fails to deserialize is not treated as absent, unless it
is the empty string. For every stored value that is not empty and on which `JSON.parse`
throws, and for every fetch outcome, `loadContacts` changes nothing but the Store, which
becomes the three default contacts: it does not call `fetch` and writes nothing. A stored
empty string is never parsed: the loader goes on to the fetch as with no stored value, and
ends with the same Store. -/
theorem loadContacts_corrupt_entry (h : Host) (b : Startup) (st : State) (s : String)
    (hstored : st.stored = some s) (hne : s ≠ "") (hbad : b.parse s = none) :
    loadContacts h b st =
      { state := { st with contacts := initialContacts }, fetchAttempted := false } ∧
    (loadContacts h b st).state.stored = st.stored ∧
    (loadContacts h b { st with stored := some "" }).state.contacts
      = (loadContacts h b { st with stored := none }).state.contacts ∧
    (loadContacts h b { st with stored := some "" }).fetchAttempted
      = (loadContacts h b { st with stored := none }).fetchAttempted := by
  have htruthy : truthy st.stored = true := by simp [truthy, hstored, hne]
  have hload : loadContacts h b st =
      { state := { st with contacts := initialContacts }, fetchAttempted := false } := by
    rw [loadContacts_entry h b st htruthy, hstored]
    simp only [orEmpty, hbad]
  have h1 := loadContacts_no_entry h b { st with stored := some "" } rfl
  have h2 := loadContacts_no_entry h b { st with stored := none } rfl
  refine ⟨hload, by rw [hload], ?_, ?_⟩
  · rw [h1, h2]
    cases hf : b.fetched with
    | rejected => simp [fetchContactsTry, hf]
    | response ok payload =>
      cases ok <;> cases payload <;> simp [fetchContactsTry, hf]
  · rw [h1, h2]
    cases hf : b.fetched with
    | rejected => simp [fetchContactsTry, hf]
    | response ok payload =>
      cases ok <;> cases payload <;> simp [fetchContactsTry, hf]

/-- The stored entry `not json`, with a request that would give `[jo]`. -/
theorem loadContacts_corrupt_entry_witness :
    corruptState.stored = some "not json" ∧ "not json" ≠ "" ∧
    joStartup.parse "not json" = none ∧
    loadContacts sampleHost joStartup corruptState =
      { state := { corruptState with contacts := initialContacts }, fetchAttempted := false } ∧
    (loadContacts sampleHost joStartup corruptState).state.stored = corruptState.stored ∧
    (loadContacts sampleHost joStartup { corruptState with stored := some "" }).state.contacts
      = (loadContacts sampleHost joStartup { corruptState with stored := none }).state.contacts ∧
    (loadContacts sampleHost joStartup { corruptState with stored := some "" }).fetchAttempted
      = (loadContacts sampleHost joStartup { corruptState with stored := none }).fetchAttempted :=
  ⟨rfl, by decide, by decide,
    loadContacts_corrupt_entry sampleHost joStartup corruptState "not json" rfl (by decide)
      (by decide)⟩

/-! ## C14: a fetched array -/

/-- C14, as stated, fails: when the storage rejects the write, the fetched array becomes the
Store but is not persisted; the stored value stays absent and a warning is shown. -/
theorem loadContacts_fetched_not_stored :
    emptyState.stored = none ∧
    joStartup.fetched = FetchOutcome.response true (Payload.array [jo]) ∧
    (loadContacts fullStorageHost joStartup emptyState).state.contacts = [jo] ∧
    (loadContacts fullStorageHost joStartup emptyState).state.stored = none ∧
    (loadContacts fullStorageHost joStartup emptyState).state.stored
      ≠ some (fullStorageHost.stringify [jo]) := by
  decide

/-- C14, amended: for every bootstrap with no persisted data in which the fetch succeeds
(success status) with an array payload `A`, `loadContacts` sets the Store to exactly `A` and
calls `persist()`: when the storage write succeeds the persisted value is the serialization
of `A`; when it fails the stored value is left as it was and the warning is shown. -/
theorem loadContacts_fetched_array (h : Host) (b : Startup) (st : State) (A : List Contact)
    (hno : truthy st.stored = false)
    (hfetch : b.fetched = FetchOutcome.response true (Payload.array A)) :
    loadContacts h b st =
      { state := persist h { st with contacts := A }, fetchAttempted := true } ∧
    (loadContacts h b st).state.contacts = A ∧
    (h.setItemOk = true → (loadContacts h b st).state.stored = some (h.stringify A)) ∧
    (h.setItemOk = false →
      (loadContacts h b st).state.stored = st.stored ∧
      (loadContacts h b st).state.messageText
        = "Could not save locally. Your changes may be lost.") := by
  have hload : loadContacts h b st =
      { state := persist h { st with contacts := A }, fetchAttempted := true } := by
    rw [loadContacts_no_entry h b st hno]
    simp only [fetchContactsTry, hfetch]
  rw [hload]
  refine ⟨rfl, by simp, ?_, ?_⟩
  · intro hw
    simp only [persist_stored_ok h _ hw]
  · intro hw
    simp only [persist_stored_fail h _ hw]
    exact ⟨rfl, rfl⟩

/-- Nothing stored, and a request answered with the array `[jo]`. -/
theorem loadContacts_fetched_array_witness :
    truthy emptyState.stored = false ∧
    joStartup.fetched = FetchOutcome.response true (Payload.array [jo]) ∧
    loadContacts sampleHost joStartup emptyState =
      { state := persist sampleHost { emptyState with contacts := [jo] },
        fetchAttempted := true } ∧
    (loadContacts sampleHost joStartup emptyState).state.contacts = [jo] ∧
    (sampleHost.setItemOk = true →
      (loadContacts sampleHost joStartup emptyState).state.stored
        = some (sampleHost.stringify [jo])) ∧
    (sampleHost.setItemOk = false →
      (loadContacts sampleHost joStartup emptyState).state.stored = emptyState.stored ∧
      (loadContacts sampleHost joStartup emptyState).state.messageText
        = "Could not save locally. Your changes may be lost.") :=
  ⟨rfl, rfl, loadContacts_fetched_array sampleHost joStartup emptyState [jo] rfl rfl⟩

/-! ## C15: new contacts go to the front -/

/-- C15: for every Store `S` and candidate `c`, after `addContact(c)` the Store is the new
contact, `c` with the assigned id, followed by `S` unchanged and in its order. From the empty
Store, adding `Jo`, `12345` with empty email gives a Store of one element with those fields
and an id, also when the candidate comes from the form through the submit handler, where it
passes validation. -/
theorem addContact_at_front (h : Host) (st : State) (c : Contact) :
    (addContact h st c).contacts
      = { id := some (toString h.now), name := c.name, phone := c.phone, email := c.email }
        :: st.contacts ∧
    (addContact h emptyState jo).contacts
      = [{ id := some (toString h.now), name := some "Jo", phone := some "12345",
           email := some "" }] ∧
    validateContact (formContact joForm) = none ∧
    (submitHandler h { st := emptyState, form := joForm }).st.contacts
      = [{ id := some (toString h.now), name := some "Jo", phone := some "12345",
           email := some "" }] := by
  have hvalid : validateContact (formContact joForm) = none := by decide
  refine ⟨addContact_contacts h st c, addContact_contacts h emptyState jo, hvalid, ?_⟩
  have hform : formContact joForm = jo := by decide
  have hid : (joForm.contactId != "") = false := by decide
  simp only [submitHandler, hvalid, hid]
  rw [hform]
  exact addContact_contacts h emptyState jo

/-! ## C16: what is persisted -/

/-- C16: whenever the storage write succeeds, after every `addContact`, every
`updateContact` on a present id and every confirmed `deleteContact`, the stored value is the
serialization of the whole resulting in-memory Store. -/
theorem stored_matches_store (h : Host) (st : State) (hw : h.setItemOk = true) :
    (∀ c : Contact,
      (addContact h st c).stored = some (h.stringify (addContact h st c).contacts)) ∧
    (∀ (id : String) (u : Contact), (∃ c ∈ st.contacts, c.id = some id) →
      (updateContact h st id u).stored
        = some (h.stringify (updateContact h st id u).contacts)) ∧
    (∀ id : String, h.confirmed = true →
      (deleteContact h st id).stored
        = some (h.stringify (deleteContact h st id).contacts)) := by
  refine ⟨?_, ?_, ?_⟩
  · intro c
    simp [addContact, persist_stored_ok h _ hw]
  · intro id u hpres
    cases hidx : findIndex (fun c => decide (c.id = some id)) st.contacts with
    | none =>
      obtain ⟨c, hc, hid⟩ := hpres
      have := findIndex_none.1 hidx c hc
      simp [hid] at this
    | some idx =>
      simp [updateContact, updateContactTry, hidx, persist_stored_ok h _ hw]
  · intro id hc
    simp [deleteContact, hc, persist_stored_ok h _ hw]

/-- The default contacts with a storage that accepts writes. -/
theorem stored_matches_store_witness :
    sampleHost.setItemOk = true ∧
    (addContact sampleHost defaultState jo).stored
      = some (sampleHost.stringify (addContact sampleHost defaultState jo).contacts) ∧
    (updateContact sampleHost defaultState "2" bo).stored
      = some (sampleHost.stringify (updateContact sampleHost defaultState "2" bo).contacts) ∧
    (deleteContact sampleHost defaultState "2").stored
      = some (sampleHost.stringify (deleteContact sampleHost defaultState "2").contacts) :=
  ⟨rfl, (stored_matches_store sampleHost defaultState rfl).1 jo,
    (stored_matches_store sampleHost defaultState rfl).2.1 "2" bo (by decide),
    (stored_matches_store sampleHost defaultState rfl).2.2 "2" rfl⟩

/-! ## `escapeHtml`: auxiliary facts -/

theorem escapeHtml_data (s : String) :
    (escapeHtml (some s)).data = s.data.flatMap escapeChar := by
  by_cases hs : s = ""
  · subst hs
    rfl
  · have : truthy (some s) = true := by simpa [truthy] using hs
    simp [escapeHtml, this, orEmpty]

theorem escapeChar_clean (a ch : Char) (hch : ch ∈ escapeChar a) :
    ch ≠ '<' ∧ ch ≠ '>' ∧ ch ≠ '"' ∧ ch ≠ '\'' := by
  unfold escapeChar at hch
  split_ifs at hch with h1 h2 h3 h4 h5
  · simp at hch
    rcases hch with rfl | rfl | rfl | rfl | rfl <;> decide
  · simp at hch
    rcases hch with rfl | rfl | rfl | rfl <;> decide
  · simp at hch
    rcases hch with rfl | rfl | rfl | rfl <;> decide
  · simp at hch
    rcases hch with rfl | rfl | rfl | rfl | rfl | rfl <;> decide
  · simp at hch
    rcases hch with rfl | rfl | rfl | rfl | rfl <;> decide
  · have : ch = a := by simpa using hch
    subst this
    exact ⟨h2, h3, h4, h5⟩

theorem ampersands_nil : AmpersandsStartEntities [] := by
  intro pre post h
  simp at h

theorem ampersands_cons (x : Char) (l : List Char)
    (hx : x = '&' → ∃ e ∈ entityTails, startsWithList e l = true)
    (hl : AmpersandsStartEntities l) : AmpersandsStartEntities (x :: l) := by
  intro pre post h
  cases pre with
  | nil =>
    simp only [List.nil_append, List.cons.injEq] at h
    obtain ⟨h1, h2⟩ := h
    subst h2
    exact hx h1
  | cons y pre =>
    simp only [List.cons_append, List.cons.injEq] at h
    exact hl pre post h.2

theorem startsWithList_append (e r : List Char) : startsWithList e (e ++ r) = true := by
  induction e with
  | nil => rfl
  | cons a e ih => simp [startsWithList, ih]

/-- Every `&` that `escapeHtml` writes is the first character of an entity. -/
theorem ampersands_flatMap (l : List Char) :
    AmpersandsStartEntities (l.flatMap escapeChar) := by
  induction l with
  | nil => exact ampersands_nil
  | cons a l ih =>
    rw [List.flatMap_cons]
    generalize l.flatMap escapeChar = r at ih
    have hne : ∀ x : Char, x ≠ '&' → (x = '&' → ∃ e ∈ entityTails, startsWithList e r = true) :=
      fun _ hx h => absurd h hx
    unfold escapeChar
    split_ifs with h1 h2 h3 h4 h5
    · refine ampersands_cons _ _ (fun _ => ⟨"amp;".data, by decide, ?_⟩) ?_
      · exact startsWithList_append "amp;".data r
      · exact ampersands_cons _ _ (fun h => absurd h (by decide))
          (ampersands_cons _ _ (fun h => absurd h (by decide))
            (ampersands_cons _ _ (fun h => absurd h (by decide))
              (ampersands_cons _ _ (fun h => absurd h (by decide)) ih)))
    · refine ampersands_cons _ _ (fun _ => ⟨"lt;".data, by decide, ?_⟩) ?_
      · exact startsWithList_append "lt;".data r
      · exact ampersands_cons _ _ (fun h => absurd h (by decide))
          (ampersands_cons _ _ (fun h => absurd h (by decide))
            (ampersands_cons _ _ (fun h => absurd h (by decide)) ih))
    · refine ampersands_cons _ _ (fun _ => ⟨"gt;".data, by decide, ?_⟩) ?_
      · exact startsWithList_append "gt;".data r
      · exact ampersands_cons _ _ (fun h => absurd h (by decide))
          (ampersands_cons _ _ (fun h => absurd h (by decide))
            (ampersands_cons _ _ (fun h => absurd h (by decide)) ih))
    · refine ampersands_cons _ _ (fun _ => ⟨"quot;".data, by decide, ?_⟩) ?_
      · exact startsWithList_append "quot;".data r
      · exact ampersands_cons _ _ (fun h => absurd h (by decide))
          (ampersands_cons _ _ (fun h => absurd h (by decide))
            (ampersands_cons _ _ (fun h => absurd h (by decide))
              (ampersands_cons _ _ (fun h => absurd h (by decide))
                (ampersands_cons _ _ (fun h => absurd h (by decide)) ih))))
    · refine ampersands_cons _ _ (fun _ => ⟨"#39;".data, by decide, ?_⟩) ?_
      · exact startsWithList_append "#39;".data r
      · exact ampersands_cons _ _ (fun h => absurd h (by decide))
          (ampersands_cons _ _ (fun h => absurd h (by decide))
            (ampersands_cons _ _ (fun h => absurd h (by decide))
              (ampersands_cons _ _ (fun h => absurd h (by decide)) ih)))
    · exact ampersands_cons _ _ (hne a h1) ih

/-! ## C17: `escapeHtml` -/

/-- C17: for every string `s`, `escapeHtml(s)` is `s` with each `&`, `<`, `>`, `"` and `'`
replaced by its entity and every other character kept; the result holds no `<`, `>`, `"` or
`'`, and every `&` in it starts one of the five entities. -/
theorem escapeHtml_entities (s : String) :
    (escapeHtml (some s)).data = s.data.flatMap escapeChar ∧
    (escapeChar '&' = "&amp;".data ∧ escapeChar '<' = "&lt;".data ∧
      escapeChar '>' = "&gt;".data ∧ escapeChar '"' = "&quot;".data ∧
      escapeChar '\'' = "&#39;".data ∧
      ∀ ch : Char, ch ∈ ['&', '<', '>', '"', '\''] ∨ escapeChar ch = [ch]) ∧
    (∀ ch ∈ (escapeHtml (some s)).data, ch ≠ '<' ∧ ch ≠ '>' ∧ ch ≠ '"' ∧ ch ≠ '\'') ∧
    AmpersandsStartEntities (escapeHtml (some s)).data := by
  refine ⟨escapeHtml_data s, ⟨rfl, rfl, rfl, rfl, rfl, ?_⟩, ?_, ?_⟩
  · intro ch
    by_cases h : ch ∈ ['&', '<', '>', '"', '\'']
    · exact Or.inl h
    · right
      simp only [List.mem_cons, List.mem_singleton, not_or, List.not_mem_nil,
        not_false_eq_true, and_true] at h
      simp [escapeChar, h.1, h.2.1, h.2.2.1, h.2.2.2.1, h.2.2.2.2]
  · intro ch hch
    rw [escapeHtml_data, List.mem_flatMap] at hch
    obtain ⟨a, -, ha⟩ := hch
    exact escapeChar_clean a ch ha
  · rw [escapeHtml_data]
    exact ampersands_flatMap s.data

/-! ## C18: the row markup -/

set_option maxRecDepth 100000 in
/-- C18 at a failing input: the name, phone and email go through `escapeHtml`, the id does
not. For a contact whose id holds a double quote, the row markup holds the id as it is, so
the quote closes the `data-id` attribute and the rest of the id becomes an attribute of its
own; the escaped form of the id does not occur in the markup. -/
theorem rowHtml_id_unescaped :
    rowHtml quoted =
      "\n          <td>Al</td>\n          <td>12345</td>\n          <td></td>" ++
      "\n          <td class=\"contact-actions\">" ++
      "\n            <button class=\"edit\" data-id=\"x\" onclick=\"alert(1)\">Edit</button>" ++
      "\n            <button class=\"delete\" data-id=\"x\" onclick=\"alert(1)\">Delete</button>" ++
      "\n          </td>\n        " ∧
    escapeHtml quoted.id = "x&quot; onclick=&quot;alert(1)" ∧
    jsIncludes (rowHtml quoted) (escapeHtml quoted.id) = false ∧
    jsIncludes (rowHtml quoted) (orEmpty quoted.id) = true := by
  decide

/-! ## C19: submitting an invalid form -/

/-- C19: for every page, in Add-mode or in Edit-mode with any cached id, whose form fields,
once trimmed, fail `validateContact` with the message `v`, the submit handler changes nothing
but the inline error, which becomes `v`: the Store and the stored value are the same, and the
cached id, the title and the button label, which tell the mode, are the same. -/
theorem submitHandler_invalid (h : Host) (p : Page) (v : String)
    (hv : validateContact (formContact p.form) = some v) :
    submitHandler h p = { p with form := { p.form with formError := v } } ∧
    (submitHandler h p).st = p.st ∧
    (submitHandler h p).st.contacts = p.st.contacts ∧
    (submitHandler h p).st.stored = p.st.stored ∧
    (submitHandler h p).form.formError = v ∧
    (submitHandler h p).form.contactId = p.form.contactId ∧
    (submitHandler h p).form.formTitle = p.form.formTitle ∧
    (submitHandler h p).form.saveBtn = p.form.saveBtn := by
  have hsub : submitHandler h p = { p with form := { p.form with formError := v } } := by
    simp only [submitHandler, hv]
  rw [hsub]
  exact ⟨rfl, rfl, rfl, rfl, rfl, rfl, rfl, rfl⟩

/-- Edit-mode for the id `2` with the name ` A `, which trims to one letter. -/
theorem submitHandler_invalid_witness :
    validateContact (formContact shortNameForm)
      = some "Name should be at least 2 characters." ∧
    submitHandler sampleHost { st := defaultState, form := shortNameForm } =
      { st := defaultState,
        form := { shortNameForm with formError := "Name should be at least 2 characters." } } ∧
    (submitHandler sampleHost { st := defaultState, form := shortNameForm }).st
      = defaultState ∧
    (submitHandler sampleHost { st := defaultState, form := shortNameForm }).form.contactId
      = "2" :=
  have hv : validateContact (formContact shortNameForm)
      = some "Name should be at least 2 characters." := by decide
  ⟨hv,
    (submitHandler_invalid sampleHost { st := defaultState, form := shortNameForm } _ hv).1,
    (submitHandler_invalid sampleHost { st := defaultState, form := shortNameForm } _ hv).2.1,
    (submitHandler_invalid sampleHost { st := defaultState, form := shortNameForm } _
      hv).2.2.2.2.2.1⟩

/-! ## C20: the count label -/

/-- C20: for every Store and every display list passed to `renderContacts`, the full Store, a
filtered list or an empty list, the count label after rendering is `Contacts: ` followed by
the length of the full Store, whatever the display list; so it is for the rendering
`applySearch` does. The Store itself is not changed by rendering. -/
theorem renderContacts_count (h : Host) (st : State) (filtered : Option (List Contact))
    (query : Option String) :
    (renderContacts st filtered).contactCount
      = "Contacts: " ++ toString st.contacts.length ∧
    (renderContacts st (some [])).contactCount = (renderContacts st none).contactCount ∧
    (applySearch h st query).contactCount = "Contacts: " ++ toString st.contacts.length ∧
    (renderContacts st filtered).contacts = st.contacts :=
  ⟨rfl, rfl, rfl, rfl⟩

end Phonebook
